import Mathlib

/-!
Verification development for the Axon ModelViewer3D component
(THREE.js GLB/GLTF viewer with professor pins and student notes).

The definitions below are a shallow embedding of the viewer source:
the pin projection pass (projectPins), the camera rig operations
(resetCamera, zoomIn, zoomOut), the GLTF load handlers (auto-center
and scale, error fallback), the resize handler, the procedural
fallback model builder (buildFallbackModel), and the effect cleanup
(teardown).  JavaScript floating point numbers are modelled as exact
rationals; division by zero (which yields a non-finite number in
JavaScript) is modelled by Option on the one site where it can occur
(the aspect-ratio computation in the resize handler).
-/

namespace ModelViewer3D

/-- A 3D vector with rational components (models THREE.Vector3). -/
structure Vec3 where
  x : ℚ
  y : ℚ
  z : ℚ
deriving Repr, DecidableEq

def Vec3.add (a b : Vec3) : Vec3 := ⟨a.x + b.x, a.y + b.y, a.z + b.z⟩

def Vec3.sub (a b : Vec3) : Vec3 := ⟨a.x - b.x, a.y - b.y, a.z - b.z⟩

def Vec3.scale (c : ℚ) (v : Vec3) : Vec3 := ⟨c * v.x, c * v.y, c * v.z⟩

def Vec3.dot (a b : Vec3) : ℚ := a.x * b.x + a.y * b.y + a.z * b.z

def Vec3.zero : Vec3 := ⟨0, 0, 0⟩

/-- An affine transformation of 3D space, given by the three rows of its
linear part and a translation.  Models the camera world-matrix inverse
(THREE.Camera.matrixWorldInverse), which is always a rigid affine map. -/
structure Affine3 where
  r1 : Vec3
  r2 : Vec3
  r3 : Vec3
  t : Vec3
deriving Repr, DecidableEq

def Affine3.apply (m : Affine3) (v : Vec3) : Vec3 :=
  ⟨m.r1.dot v + m.t.x, m.r2.dot v + m.t.y, m.r3.dot v + m.t.z⟩

/-- The identity view transform (camera frame = world frame). -/
def idView : Affine3 := ⟨⟨1, 0, 0⟩, ⟨0, 1, 0⟩, ⟨0, 0, 1⟩, ⟨0, 0, 0⟩⟩

/-- Near plane of the viewer camera, from
`new THREE.PerspectiveCamera(45, aspect, 0.01, 200)`. -/
def cameraNear : ℚ := 1 / 100

/-- Far plane of the viewer camera, from the same constructor call. -/
def cameraFar : ℚ := 200

/-- The camera used by the projection pass: its view transform
(matrixWorldInverse) plus the two focal coefficients of the perspective
matrix.  In the source the coefficients are
`1 / (aspect * tan(fov/2))` and `1 / tan(fov/2)` with fov = 45 degrees;
the tangent is irrational, so they are carried as parameters here.
They do not enter the depth (z) row of the projection, which is fully
determined by the near and far planes. -/
structure Camera where
  view : Affine3
  cx : ℚ
  cy : ℚ
deriving Repr, DecidableEq

/-- Perspective projection of a camera-space point to normalized device
coordinates, following THREE.Matrix4.makePerspective followed by the
perspective divide: clip = (cx*x, cy*y, c*z + d, -z) with
c = -(far+near)/(far-near) and d = -2*far*near/(far-near). -/
def perspectiveNDC (cx cy near far : ℚ) (p : Vec3) : Vec3 :=
  let w := -p.z
  ⟨(cx * p.x) / w,
   (cy * p.y) / w,
   ((-((far + near) / (far - near))) * p.z + (-(2 * far * near / (far - near)))) / w⟩

/-- Model of `vec.project(camera)`: apply the view transform, then the
perspective projection with the viewer camera near/far planes. -/
def projectVec (cam : Camera) (v : Vec3) : Vec3 :=
  perspectiveNDC cam.cx cam.cy cameraNear cameraFar (cam.view.apply v)

/-- Camera-space depth of a world point along the viewing direction
(the camera looks down its negative z axis, so this is minus the
camera-space z coordinate).  Negative depth means the point lies
behind the camera. -/
def viewDepth (cam : Camera) (v : Vec3) : ℚ := -(cam.view.apply v).z

/-- An annotation-pin record (ApiModel3DPin).  The TypeScript type
declares `geometry` required, but the runtime record arrives from the
server and may lack it; `geometry : Option Vec3` models that.
Metadata fields not read by the projection pass are kept as options. -/
structure Pin where
  id : String
  model_id : String
  geometry : Option Vec3
  label : Option String
  color : Option String
  description : Option String
  order_index : Int
deriving Repr, DecidableEq

/-- The bounding client rect of the host container (only width and
height are read by the projection pass). -/
structure Rect where
  width : ℚ
  height : ℚ
deriving Repr, DecidableEq

/-- A projected pin in 2D screen coordinates (interface Projected2DPin). -/
structure Projected2DPin where
  pin : Pin
  x : ℚ
  y : ℚ
  visible : Bool
deriving Repr, DecidableEq

/-- Projection of one pin inside the `currentPins.map` callback.
`new THREE.Vector3(pin.geometry.x, ...)` on a record whose geometry is
absent throws a TypeError in JavaScript (reading a property of
undefined); that exception is modelled by `Except.error ()`. -/
def projectPin (cam : Camera) (rect : Rect) (pin : Pin) : Except Unit Projected2DPin :=
  match pin.geometry with
  | none => .error ()
  | some g =>
      let vec := projectVec cam g
      .ok { pin := pin,
            x := (vec.x * (1 / 2) + 1 / 2) * rect.width,
            y := (-vec.y * (1 / 2) + 1 / 2) * rect.height,
            visible := decide (vec.z < 1) }

/-- Model of `Array.prototype.map` over a callback that may throw: the
first exception aborts the whole map and propagates. -/
def mapThrow (f : α → Except Unit β) : List α → Except Unit (List β)
  | [] => .ok []
  | a :: as =>
      match f a with
      | .error e => .error e
      | .ok b =>
          match mapThrow f as with
          | .error e => .error e
          | .ok bs => .ok (b :: bs)

/-- The projection pass (useCallback projectPins).  The camera and
container refs may be null, modelled by Option; if either is null or
the current pin list is empty, the projected list is set to [] and the
pass returns. -/
def projectPins (cameraRef : Option Camera) (containerRef : Option Rect)
    (pins : List Pin) : Except Unit (List Projected2DPin) :=
  match cameraRef, containerRef with
  | some cam, some rect =>
      if pins.length = 0 then .ok []
      else mapThrow (projectPin cam rect) pins
  | _, _ => .ok []

/-- The camera/controls rig state touched by the camera operation
buttons: the camera position and the orbit-controls target. -/
structure CamRig where
  pos : Vec3
  target : Vec3
deriving Repr, DecidableEq

/-- A zoom button press.  `camera.getWorldDirection(dir)` returns the
current unit view direction of the camera as a float vector; it is
carried here as the payload of the operation, so a sequence of
operations records the direction the camera had at each press. -/
inductive CamOp where
  | zoomInStep (dir : Vec3)
  | zoomOutStep (dir : Vec3)
deriving Repr, DecidableEq

/-- Models zoomIn / zoomOut: `camera.position.addScaledVector(dir, s)`
with s = 0.5 for zoom in and s = -0.5 for zoom out; the controls
target is not touched. -/
def applyCamOp (s : CamRig) : CamOp → CamRig
  | .zoomInStep dir => { s with pos := s.pos.add (Vec3.scale (1 / 2) dir) }
  | .zoomOutStep dir => { s with pos := s.pos.add (Vec3.scale (-(1 / 2)) dir) }

def applyCamOps (s : CamRig) (ops : List CamOp) : CamRig :=
  ops.foldl applyCamOp s

/-- Models resetCamera: `camera.position.set(3, 2, 4)` and
`controls.target.set(0, 0, 0)`, then `controls.update()`. -/
def resetCamera (s : CamRig) : CamRig :=
  { s with pos := ⟨3, 2, 4⟩, target := ⟨0, 0, 0⟩ }

/-- The default rig state from scene setup: camera at (3,2,4) looking
at the origin, controls target at the origin. -/
def defaultRig : CamRig := ⟨⟨3, 2, 4⟩, ⟨0, 0, 0⟩⟩

/-- An axis-aligned bounding box (THREE.Box3), as its min and max
corners. -/
structure Box3 where
  lo : Vec3
  hi : Vec3
deriving Repr, DecidableEq

/-- Models `box.getCenter(...)`: (min + max) * 0.5. -/
def boxCenter (b : Box3) : Vec3 := Vec3.scale (1 / 2) (b.lo.add b.hi)

/-- Models `box.getSize(...)`: max - min. -/
def boxSize (b : Box3) : Vec3 := b.hi.sub b.lo

/-- Models `Math.max(size.x, size.y, size.z)`. -/
def maxDim (s : Vec3) : ℚ := max s.x (max s.y s.z)

/-- The uniform scale applied in the GLTF onLoad handler:
`scale = 3 / maxDim`. -/
def fitScale (b : Box3) : ℚ := 3 / maxDim (boxSize b)

/-- The root position set in the onLoad handler:
`model.position.sub(center.multiplyScalar(scale))`.  The gltf.scene
root produced by GLTFLoader carries the identity transform, so its
position starts at the origin and the world bounding box computed by
`new THREE.Box3().setFromObject(model)` equals the geometry box. -/
def fitPosition (b : Box3) : Vec3 :=
  Vec3.zero.sub (Vec3.scale (fitScale b) (boxCenter b))

/-- The world bounding box of the model after the onLoad handler has
applied the uniform scale and the recentering translation (a world
point is position + scale * local point; the scale is positive for any
box with a positive largest dimension, so min/max corners map to
min/max corners). -/
def fittedWorldBox (b : Box3) : Box3 :=
  ⟨(fitPosition b).add (Vec3.scale (fitScale b) b.lo),
   (fitPosition b).add (Vec3.scale (fitScale b) b.hi)⟩

/-- The camera position set in the onLoad handler:
`camera.position.set(maxDim*scale*1.5, maxDim*scale, maxDim*scale*1.5)`. -/
def fitCameraPos (b : Box3) : Vec3 :=
  let m := maxDim (boxSize b)
  let s := fitScale b
  ⟨m * s * (3 / 2), m * s, m * s * (3 / 2)⟩

/-- Node kinds of the scene graph children added by the viewer.
`scene.traverse` disposal touches only THREE.Mesh instances; lights
and the GridHelper (a LineSegments) are not meshes. -/
inductive NodeKind where
  | mesh
  | light
  | grid
  | group
deriving Repr, DecidableEq

/-- Geometry descriptors for the meshes the viewer itself builds.  The
lathe profile radii of the fallback shaft involve cos(pi*t) and the
cartilage cap uses a theta length of pi/3; those transcendental values
are not needed by any claim, so the descriptors carry only the discrete
construction parameters and the exact sphere radii. -/
inductive GeomDesc where
  | empty
  | lathe (profilePoints segments : Nat)
  | sphere (radius : ℚ) (widthSeg heightSeg : Nat)
  | sphereCap (radius : ℚ) (widthSeg heightSeg : Nat)
  | gridGeom (size divisions : Nat)
deriving Repr, DecidableEq

/-- A direct child of the scene graph, with dispose counters for its
geometry and material (0 until teardown touches it). -/
structure SceneNode where
  kind : NodeKind
  label : String
  geom : GeomDesc
  position : Vec3
  geomDisposals : Nat
  matDisposals : Nat
deriving Repr, DecidableEq

/-- The lighting rig and ground grid added at scene setup: one ambient
light, key/fill/rim directional lights at (5,8,5), (-3,2,-3), (0,-2,-5),
and a GridHelper(10, 20) at y = -1.5. -/
def lightingNodes : List SceneNode :=
  [⟨.light, "ambient", .empty, ⟨0, 0, 0⟩, 0, 0⟩,
   ⟨.light, "key", .empty, ⟨5, 8, 5⟩, 0, 0⟩,
   ⟨.light, "fill", .empty, ⟨-3, 2, -3⟩, 0, 0⟩,
   ⟨.light, "rim", .empty, ⟨0, -2, -5⟩, 0, 0⟩,
   ⟨.grid, "grid", .gridGeom 10 20, ⟨0, -(3 / 2), 0⟩, 0, 0⟩]

/-- buildFallbackModel: the procedural generic-bone placeholder.  Adds
five meshes to the scene: the lathe-revolved shaft (21 profile points,
24 segments), the proximal sphere (radius 0.55) at (0,2,0), two distal
spheres (radius 0.4) at (-0.2,-2,0) and (0.2,-2,0), and the
translucent cartilage cap (radius 0.56) at (0,2,0). -/
def buildFallbackModel (children : List SceneNode) : List SceneNode :=
  children ++
    [⟨.mesh, "shaft", .lathe 21 24, ⟨0, 0, 0⟩, 0, 0⟩,
     ⟨.mesh, "prox", .sphere (11 / 20) 24 24, ⟨0, 2, 0⟩, 0, 0⟩,
     ⟨.mesh, "dist1", .sphere (2 / 5) 20 20, ⟨-(1 / 5), -2, 0⟩, 0, 0⟩,
     ⟨.mesh, "dist2", .sphere (2 / 5) 20 20, ⟨1 / 5, -2, 0⟩, 0, 0⟩,
     ⟨.mesh, "cart", .sphereCap (14 / 25) 24 24, ⟨0, 2, 0⟩, 0, 0⟩]

/-- JavaScript division as used for the camera aspect ratio: dividing
by zero yields Infinity or NaN (a non-finite number), modelled as
`none`; any other division is exact. -/
def jsDiv (a b : ℚ) : Option ℚ := if b = 0 then none else some (a / b)

/-- The state of one scene session: the resources built by the scene
effect, the mutable scene graph and rig, and the React state flags the
handlers write. -/
structure SessionState where
  sceneChildren : List SceneNode
  rig : CamRig
  aspect : Option ℚ
  rendererW : ℚ
  rendererH : ℚ
  loopActive : Bool
  observerConnected : Bool
  listenerAttached : Bool
  domAttached : Bool
  controlsDisposeCount : Nat
  rendererDisposeCount : Nat
  isLoading : Bool
  loadError : Option String
deriving Repr, DecidableEq

/-- The synchronous part of the scene effect: scene, camera (aspect =
clientWidth/clientHeight, position (3,2,4), target origin), renderer
sized to the container, controls, lighting and grid; loading flag set,
error cleared; render loop started, resize observer observing, dblclick
listener attached.  Returns the state plus whether a network request
was issued: with a fileUrl the GLTFLoader request goes out and the load
is pending; with no fileUrl the procedural fallback is built directly
and loading ends, with no network call. -/
def initScene (w h : ℚ) (fileUrl : Option String) : SessionState × Bool :=
  let base : SessionState :=
    { sceneChildren := lightingNodes,
      rig := defaultRig,
      aspect := jsDiv w h,
      rendererW := w,
      rendererH := h,
      loopActive := true,
      observerConnected := true,
      listenerAttached := true,
      domAttached := true,
      controlsDisposeCount := 0,
      rendererDisposeCount := 0,
      isLoading := true,
      loadError := none }
  match fileUrl with
  | some _ => (base, true)
  | none =>
      ({ base with sceneChildren := buildFallbackModel base.sceneChildren,
                   isLoading := false }, false)

/-- The GLTFLoader success callback, given the world bounding box of
the loaded scene graph: auto-center and scale the model, add it to the
scene, reset the controls target, reposition the camera, and clear the
loading flag.  The callback holds the scene, camera and controls of
its own session in its closure, so it writes to that session whatever
has happened since. -/
def onLoadSuccess (box : Box3) (s : SessionState) : SessionState :=
  { s with
    sceneChildren := s.sceneChildren ++
      [⟨.group, "gltf.scene", .empty, fitPosition box, 0, 0⟩],
    rig := { pos := fitCameraPos box, target := ⟨0, 0, 0⟩ },
    isLoading := false }

/-- The GLTFLoader error callback: set a (Spanish) error message, build
the procedural fallback into the scene, and clear the loading flag. -/
def onLoadFailure (s : SessionState) : SessionState :=
  { s with
    loadError := some ("Error al cargar el modelo 3D"),
    sceneChildren := buildFallbackModel s.sceneChildren,
    isLoading := false }

/-- handleResize: read the container client size, assign
`camera.aspect = w / h` (a JavaScript division, non-finite when h = 0),
update the projection matrix, and resize the renderer.  There is no
guard on degenerate sizes. -/
def handleResize (w h : ℚ) (s : SessionState) : SessionState :=
  { s with aspect := jsDiv w h, rendererW := w, rendererH := h }

/-- Disposal of one scene node during the cleanup traversal: only
meshes have their geometry and material disposed; every call
increments the dispose counters unconditionally. -/
def disposeNode (n : SceneNode) : SceneNode :=
  if n.kind = NodeKind.mesh then
    { n with geomDisposals := n.geomDisposals + 1, matDisposals := n.matDisposals + 1 }
  else n

/-- The scene effect cleanup: cancel the animation frame, disconnect
the resize observer, remove the dblclick listener, dispose controls
and renderer (unconditionally, incrementing their dispose counts),
detach the renderer DOM element (guarded by a containment check, so
detaching is idempotent), and traverse the scene disposing every mesh
geometry and material. -/
def teardown (s : SessionState) : SessionState :=
  { s with
    loopActive := false,
    observerConnected := false,
    listenerAttached := false,
    controlsDisposeCount := s.controlsDisposeCount + 1,
    rendererDisposeCount := s.rendererDisposeCount + 1,
    domAttached := false,
    sceneChildren := s.sceneChildren.map disposeNode }

/-- A demonstration camera: identity view transform, unit focal
coefficients. -/
def demoCam : Camera := ⟨idView, 1, 1⟩

/-- A demonstration host-surface rect of 800 by 600 pixels. -/
def demoRect : Rect := ⟨800, 600⟩

/-- A well-formed pin five units in front of the demonstration camera. -/
def demoPinFront : Pin :=
  ⟨"pin-front", "model-1", some ⟨0, 0, -5⟩, none, none, none, 0⟩

/-- A well-formed pin five units behind the demonstration camera. -/
def demoPinBehind : Pin :=
  ⟨"pin-behind", "model-1", some ⟨0, 0, 5⟩, none, none, none, 1⟩

/-- A malformed pin record whose geometry is absent. -/
def demoPinBad : Pin :=
  ⟨"pin-missing-geometry", "model-1", none, none, none, none, 2⟩

/-- The projection of demoPinFront through demoCam onto demoRect. -/
def demoProjFront : Projected2DPin := ⟨demoPinFront, 400, 300, true⟩

/-- A demonstration world bounding box of size (2, 4, 2). -/
def demoBox : Box3 := ⟨⟨0, 0, 0⟩, ⟨2, 4, 2⟩⟩

/-! Helper lemmas about the throwing map. -/

theorem mapThrow_ok_length {α β : Type} (f : α → Except Unit β) (l : List α) :
    ∀ res, mapThrow f l = .ok res → res.length = l.length := by
  induction l with
  | nil =>
      intro res h
      simp only [mapThrow] at h
      cases h
      rfl
  | cons a as ih =>
      intro res h
      simp only [mapThrow] at h
      cases hfa : f a with
      | error e => rw [hfa] at h; cases h
      | ok b =>
          rw [hfa] at h
          cases hrest : mapThrow f as with
          | error e => rw [hrest] at h; cases h
          | ok bs =>
              rw [hrest] at h
              cases h
              simp [ih bs hrest]

theorem mapThrow_ok_mem {α β : Type} (f : α → Except Unit β) (l : List α) :
    ∀ res, mapThrow f l = .ok res → ∀ b ∈ res, ∃ a ∈ l, f a = .ok b := by
  induction l with
  | nil =>
      intro res h
      simp only [mapThrow] at h
      cases h
      intro b hb
      cases hb
  | cons a as ih =>
      intro res h
      simp only [mapThrow] at h
      cases hfa : f a with
      | error e => rw [hfa] at h; cases h
      | ok b =>
          rw [hfa] at h
          cases hrest : mapThrow f as with
          | error e => rw [hrest] at h; cases h
          | ok bs =>
              rw [hrest] at h
              cases h
              intro c hc
              rcases List.mem_cons.mp hc with hc | hc
              · exact ⟨a, List.mem_cons_self a as, by rw [hfa, hc]⟩
              · rcases ih bs hrest c hc with ⟨a2, ha2, hfa2⟩
                exact ⟨a2, List.mem_cons_of_mem a ha2, hfa2⟩

theorem mapThrow_ok_map {α β : Type} (f : α → Except Unit β) (g : β → α)
    (hg : ∀ a b, f a = .ok b → g b = a) (l : List α) :
    ∀ res, mapThrow f l = .ok res → res.map g = l := by
  induction l with
  | nil =>
      intro res h
      simp only [mapThrow] at h
      cases h
      rfl
  | cons a as ih =>
      intro res h
      simp only [mapThrow] at h
      cases hfa : f a with
      | error e => rw [hfa] at h; cases h
      | ok b =>
          rw [hfa] at h
          cases hrest : mapThrow f as with
          | error e => rw [hrest] at h; cases h
          | ok bs =>
              rw [hrest] at h
              cases h
              simp [hg a b hfa, ih bs hrest]

theorem mapThrow_total {α β : Type} (f : α → Except Unit β) (l : List α)
    (h : ∀ a ∈ l, ∃ b, f a = .ok b) :
    ∃ res, mapThrow f l = .ok res := by
  induction l with
  | nil => exact ⟨[], rfl⟩
  | cons a as ih =>
      rcases h a (List.mem_cons_self a as) with ⟨b, hb⟩
      rcases ih (fun a2 ha2 => h a2 (List.mem_cons_of_mem a ha2)) with ⟨bs, hbs⟩
      refine ⟨b :: bs, ?_⟩
      simp only [mapThrow]
      rw [hb, hbs]

/-- A successful single-pin projection keeps the pin record itself in
the result. -/
theorem projectPin_ok_pin (cam : Camera) (rect : Rect) (p : Pin)
    (q : Projected2DPin) (h : projectPin cam rect p = .ok q) : q.pin = p := by
  cases hg : p.geometry with
  | none => simp [projectPin, hg] at h
  | some g =>
      simp only [projectPin, hg] at h
      cases h
      rfl

/-! Concrete evaluations of the projection pass on the demonstration
inputs, shared by the witnesses below. -/

theorem demo_projectPin_front_eval :
    projectPin demoCam demoRect demoPinFront = Except.ok demoProjFront := by
  simp only [projectPin, projectVec, perspectiveNDC, demoCam, demoRect, demoPinFront,
    demoProjFront, idView, Affine3.apply, Vec3.dot, cameraNear, cameraFar,
    Except.ok.injEq, Projected2DPin.mk.injEq, decide_eq_true_eq]
  norm_num

theorem demo_projectPins_front_eval :
    projectPins (some demoCam) (some demoRect) [demoPinFront] =
      Except.ok [demoProjFront] := by
  simp only [projectPins, List.length_cons, List.length_nil, Nat.zero_add,
    mapThrow, demo_projectPin_front_eval]
  norm_num

theorem demo_projectPin_behind_eval :
    projectPin demoCam demoRect demoPinBehind =
      Except.ok ⟨demoPinBehind, 400, 300, false⟩ := by
  simp only [projectPin, projectVec, perspectiveNDC, demoCam, demoRect, demoPinBehind,
    idView, Affine3.apply, Vec3.dot, cameraNear, cameraFar,
    Except.ok.injEq, Projected2DPin.mk.injEq, decide_eq_false_iff_not, not_lt]
  norm_num

theorem demo_viewDepth_behind_eval : viewDepth demoCam ⟨0, 0, 5⟩ < 0 := by
  norm_num [viewDepth, demoCam, idView, Affine3.apply, Vec3.dot]

/-! Claim theorems. -/

/-- C1: For every annotation pin currently known, one projection pass
maps the pin 3D position to normalized device coordinates with the
current camera and then to pixel coordinates of the host surface by
screen_x = (ndc_x * 0.5 + 0.5) * surface_width and
screen_y = (-ndc_y * 0.5 + 0.5) * surface_height, and marks the pin
invisible exactly when its projected depth component is at least 1. -/
theorem projection_screen_formula (cam : Camera) (rect : Rect)
    (pins : List Pin) (res : List Projected2DPin) (pr : Projected2DPin)
    (h : projectPins (some cam) (some rect) pins = Except.ok res)
    (hmem : pr ∈ res) :
    ∃ p ∈ pins, ∃ g, p.geometry = some g ∧ pr.pin = p ∧
      pr.x = ((projectVec cam g).x * (1 / 2) + 1 / 2) * rect.width ∧
      pr.y = (-(projectVec cam g).y * (1 / 2) + 1 / 2) * rect.height ∧
      (pr.visible = false ↔ 1 ≤ (projectVec cam g).z) := by
  by_cases hlen : pins.length = 0
  · rw [List.length_eq_zero] at hlen
    subst hlen
    simp only [projectPins, List.length_nil, if_pos, Except.ok.injEq] at h
    subst h
    exact absurd hmem (List.not_mem_nil pr)
  · simp only [projectPins, if_neg hlen] at h
    rcases mapThrow_ok_mem _ _ res h pr hmem with ⟨p, hp, hpr⟩
    cases hg : p.geometry with
    | none => simp [projectPin, hg] at hpr
    | some g =>
        simp only [projectPin, hg, Except.ok.injEq] at hpr
        subst hpr
        refine ⟨p, hp, g, hg, rfl, rfl, rfl, ?_⟩
        simp [decide_eq_false_iff_not, not_lt]

/-- Witness for C1 at the demonstration camera, surface and in-front
pin. -/
theorem projection_screen_formula_witness :
    ∃ p ∈ ([demoPinFront] : List Pin), ∃ g, p.geometry = some g ∧
      demoProjFront.pin = p ∧
      demoProjFront.x = ((projectVec demoCam g).x * (1 / 2) + 1 / 2) * demoRect.width ∧
      demoProjFront.y = (-(projectVec demoCam g).y * (1 / 2) + 1 / 2) * demoRect.height ∧
      (demoProjFront.visible = false ↔ 1 ≤ (projectVec demoCam g).z) :=
  projection_screen_formula demoCam demoRect [demoPinFront] [demoProjFront]
    demoProjFront demo_projectPins_front_eval (List.mem_singleton.mpr rfl)

/-- C2: A pin directly behind the camera (negative camera-space
distance along the view direction) is projected with visible = false,
with the perspective camera near plane 0.01 and far plane 200. -/
theorem behind_camera_invisible (cam : Camera) (rect : Rect) (pin : Pin)
    (g : Vec3) (r : Projected2DPin)
    (hg : pin.geometry = some g)
    (hbehind : viewDepth cam g < 0)
    (hr : projectPin cam rect pin = Except.ok r) :
    r.visible = false := by
  have hz : 0 < (cam.view.apply g).z := by
    simp only [viewDepth] at hbehind
    linarith
  simp only [projectPin, hg, Except.ok.injEq] at hr
  subst hr
  show decide ((projectVec cam g).z < 1) = false
  rw [decide_eq_false_iff_not, not_lt]
  simp only [projectVec, perspectiveNDC, cameraNear, cameraFar]
  rw [le_div_iff_of_neg (by linarith : -(cam.view.apply g).z < 0)]
  norm_num
  linarith

/-- Witness for C2 at the demonstration camera and the behind pin. -/
theorem behind_camera_invisible_witness :
    viewDepth demoCam ⟨0, 0, 5⟩ < 0 ∧
    (⟨demoPinBehind, 400, 300, false⟩ : Projected2DPin).visible = false :=
  ⟨demo_viewDepth_behind_eval,
   behind_camera_invisible demoCam demoRect demoPinBehind ⟨0, 0, 5⟩
     ⟨demoPinBehind, 400, 300, false⟩ rfl demo_viewDepth_behind_eval
     demo_projectPin_behind_eval⟩

/-- C3: A projection pass that completes yields one projected pin per
current pin, carrying the same pin records in the same order; and with
zero pins supplied the projected list is always empty with no error,
whatever the camera and container refs hold. -/
theorem projectPins_count_identity (cam : Camera) (rect : Rect)
    (pins : List Pin) (res : List Projected2DPin)
    (c : Option Camera) (r : Option Rect)
    (h : projectPins (some cam) (some rect) pins = Except.ok res) :
    (res.length = pins.length ∧ res.map Projected2DPin.pin = pins) ∧
    projectPins c r ([] : List Pin) = Except.ok [] := by
  constructor
  · by_cases hlen : pins.length = 0
    · rw [List.length_eq_zero] at hlen
      subst hlen
      simp only [projectPins, List.length_nil, if_pos, Except.ok.injEq] at h
      subst h
      simp
    · simp only [projectPins, if_neg hlen] at h
      exact ⟨mapThrow_ok_length _ _ res h,
             mapThrow_ok_map _ _ (projectPin_ok_pin cam rect) _ res h⟩
  · cases c <;> cases r <;> simp [projectPins]

/-- Witness for C3 at the demonstration camera, surface and in-front
pin, with null refs for the zero-pin half. -/
theorem projectPins_count_identity_witness :
    (([demoProjFront] : List Projected2DPin).length = ([demoPinFront] : List Pin).length ∧
      ([demoProjFront] : List Projected2DPin).map Projected2DPin.pin = [demoPinFront]) ∧
    projectPins none none ([] : List Pin) = Except.ok [] :=
  projectPins_count_identity demoCam demoRect [demoPinFront] [demoProjFront]
    none none demo_projectPins_front_eval

/-- C4: On successful asset load the model is scaled by 3 divided by
the largest bounding dimension and recentered at the origin; for a
bounding box of size (2, 4, 2), wherever it sits, the scale is 3/4 and
the scaled world bounding size is (1.5, 3, 1.5) with center at the
origin. -/
theorem gltf_fit_scale_recenter (lo : Vec3) :
    fitScale ⟨lo, lo.add ⟨2, 4, 2⟩⟩ = 3 / 4 ∧
    boxSize (fittedWorldBox ⟨lo, lo.add ⟨2, 4, 2⟩⟩) = ⟨3 / 2, 3, 3 / 2⟩ ∧
    boxCenter (fittedWorldBox ⟨lo, lo.add ⟨2, 4, 2⟩⟩) = ⟨0, 0, 0⟩ := by
  obtain ⟨a, b, c⟩ := lo
  have hmax : maxDim ⟨a + 2 - a, b + 4 - b, c + 2 - c⟩ = 4 := by
    have e1 : a + 2 - a = 2 := by ring
    have e2 : b + 4 - b = 4 := by ring
    have e3 : c + 2 - c = 2 := by ring
    rw [e1, e2, e3]
    norm_num [maxDim, max_def]
  have hscale : fitScale ⟨⟨a, b, c⟩, Vec3.add ⟨a, b, c⟩ ⟨2, 4, 2⟩⟩ = 3 / 4 := by
    show 3 / maxDim ⟨a + 2 - a, b + 4 - b, c + 2 - c⟩ = 3 / 4
    rw [hmax]
  refine ⟨hscale, ?_, ?_⟩
  · unfold fittedWorldBox boxSize fitPosition boxCenter
    rw [hscale]
    simp only [boxCenter, Vec3.add, Vec3.sub, Vec3.scale, Vec3.zero, Vec3.mk.injEq]
    refine ⟨by ring, by ring, by ring⟩
  · unfold fittedWorldBox boxCenter fitPosition
    rw [hscale]
    simp only [boxCenter, Vec3.add, Vec3.sub, Vec3.scale, Vec3.zero, Vec3.mk.injEq]
    refine ⟨by ring, by ring, by ring⟩

/-- C5: After any sequence of zoom-in and zoom-out presses (each
translating the camera by half a unit along its view direction at the
time of the press, never touching the target), one reset restores the
camera position to (3, 2, 4) and the controls target to the origin
exactly. -/
theorem reset_after_zoom_sequence (ops : List CamOp) (s : CamRig) :
    resetCamera (applyCamOps s ops) = defaultRig ∧
    (applyCamOps s ops).target = s.target := by
  constructor
  · rcases applyCamOps s ops with ⟨p, t⟩
    rfl
  · induction ops generalizing s with
    | nil => rfl
    | cons op ops ih =>
        have hstep : applyCamOps s (op :: ops) = applyCamOps (applyCamOp s op) ops := rfl
        rw [hstep, ih (applyCamOp s op)]
        cases op <;> rfl

/-- A session built for a remote asset URL and then torn down while
the GLTF load is still in flight. -/
def demoTornSession : SessionState :=
  teardown (initScene 800 600 (some ("u"))).1

/-- Evaluation of the single-pin projection on a degenerate zero-size
surface: the pass still runs and yields screen coordinates (0, 0). -/
theorem demo_projectPin_degenerate_eval :
    projectPin demoCam ⟨0, 0⟩ demoPinFront =
      Except.ok ⟨demoPinFront, 0, 0, true⟩ := by
  simp only [projectPin, projectVec, perspectiveNDC, demoCam, demoPinFront, idView,
    Affine3.apply, Vec3.dot, cameraNear, cameraFar, Except.ok.injEq,
    Projected2DPin.mk.injEq, decide_eq_true_eq]
  norm_num

/-- The normalized device coordinates of the demonstration in-front
point under the demonstration camera. -/
theorem demo_projectVec_front_eval :
    projectVec demoCam ⟨0, 0, -5⟩ = ⟨0, 0, 19921 / 19999⟩ := by
  simp only [projectVec, perspectiveNDC, demoCam, idView, Affine3.apply, Vec3.dot,
    cameraNear, cameraFar, Vec3.mk.injEq]
  norm_num

/-- C6 counterexample: running the scene effect cleanup twice on a
fully constructed session disposes the controls and the renderer a
second time (both dispose counts reach 2), so teardown is not
double-dispose free. -/
theorem teardown_double_dispose_cex :
    (teardown (teardown (initScene 800 600 none).1)).controlsDisposeCount = 2 ∧
    (teardown (teardown (initScene 800 600 none).1)).rendererDisposeCount = 2 :=
  ⟨rfl, rfl⟩

/-- C6 amended: calling teardown twice does not throw and leaves the
loop stopped and the DOM detached (the detach is guarded by a
containment check), but the unguarded dispose calls run again: the
controls and renderer dispose counts grow by two. -/
theorem teardown_twice_no_guard (s : SessionState) :
    (teardown (teardown s)).controlsDisposeCount = s.controlsDisposeCount + 2 ∧
    (teardown (teardown s)).rendererDisposeCount = s.rendererDisposeCount + 2 ∧
    (teardown s).domAttached = false ∧
    (teardown (teardown s)).domAttached = false ∧
    (teardown (teardown s)).loopActive = false :=
  ⟨rfl, rfl, rfl, rfl, rfl⟩

/-- C7 counterexample: a batch holding one record with missing
geometry and one well-formed record makes the projection pass throw
(the TypeError from reading a coordinate of undefined), so the
malformed record is not skipped and the well-formed pin is not
projected. -/
theorem malformed_pin_aborts_cex :
    projectPins (some demoCam) (some demoRect) [demoPinBad, demoPinFront] =
      Except.error () :=
  rfl

/-- C7 amended: the projection pass has no per-record guard: a record
with missing geometry raises an exception that aborts the whole batch;
only when every record carries its geometry does the pass complete,
and then it projects every pin. -/
theorem wellformed_pins_all_projected (cam : Camera) (rect : Rect) (pins : List Pin)
    (h : ∀ p ∈ pins, (p.geometry).isSome = true) :
    ∃ res, projectPins (some cam) (some rect) pins = Except.ok res ∧
      res.map Projected2DPin.pin = pins := by
  by_cases hlen : pins.length = 0
  · rw [List.length_eq_zero] at hlen
    subst hlen
    exact ⟨[], by simp [projectPins], by simp⟩
  · have htot : ∀ p ∈ pins, ∃ b, projectPin cam rect p = Except.ok b := by
      intro p hp
      cases hg : p.geometry with
      | none => exact absurd (h p hp) (by simp [hg])
      | some g =>
          exact ⟨⟨p, ((projectVec cam g).x * (1 / 2) + 1 / 2) * rect.width,
                 (-(projectVec cam g).y * (1 / 2) + 1 / 2) * rect.height,
                 decide ((projectVec cam g).z < 1)⟩, by simp only [projectPin, hg]⟩
    rcases mapThrow_total (projectPin cam rect) pins htot with ⟨res, hres⟩
    refine ⟨res, ?_, mapThrow_ok_map _ _ (projectPin_ok_pin cam rect) pins res hres⟩
    simp only [projectPins, if_neg hlen]
    exact hres

/-- Witness for the amended C7 at the demonstration inputs. -/
theorem wellformed_pins_all_projected_witness :
    ∃ res, projectPins (some demoCam) (some demoRect) [demoPinFront] = Except.ok res ∧
      res.map Projected2DPin.pin = [demoPinFront] :=
  wellformed_pins_all_projected demoCam demoRect [demoPinFront]
    (by simp [demoPinFront])

/-- C8 counterexample: on a resize to zero dimensions nothing is
skipped: the resize handler runs, the renderer is resized to zero, and
the division by zero does enter the camera aspect (which becomes
non-finite); the projection pass of the next tick also still runs on
the zero-size surface, producing degenerate screen coordinates. -/
theorem zero_resize_cex :
    (handleResize 0 0 (initScene 800 600 none).1).aspect = none ∧
    (handleResize 0 0 (initScene 800 600 none).1).rendererW = 0 ∧
    projectPins (some demoCam) (some ⟨0, 0⟩) [demoPinFront] =
      Except.ok [⟨demoPinFront, 0, 0, true⟩] := by
  refine ⟨rfl, rfl, ?_⟩
  simp only [projectPins, List.length_cons, List.length_nil, Nat.zero_add,
    mapThrow, demo_projectPin_degenerate_eval]
  norm_num

/-- C8 amended: a resize to zero dimensions is not skipped and makes
the camera aspect non-finite without crashing; as soon as a positive
size (400 by 300) is observed the handler restores a finite aspect,
and the next projection of any pin whose normalized device coordinates
lie in the unit square lands within the new surface bounds. -/
theorem resize_zero_then_positive_recovery (s : SessionState) (cam : Camera)
    (pin : Pin) (g : Vec3) (hg : pin.geometry = some g)
    (hx1 : -1 ≤ (projectVec cam g).x) (hx2 : (projectVec cam g).x ≤ 1)
    (hy1 : -1 ≤ (projectVec cam g).y) (hy2 : (projectVec cam g).y ≤ 1) :
    (handleResize 400 300 (handleResize 0 0 s)).aspect = some (4 / 3) ∧
    ∃ r, projectPin cam ⟨400, 300⟩ pin = Except.ok r ∧
      0 ≤ r.x ∧ r.x ≤ 400 ∧ 0 ≤ r.y ∧ r.y ≤ 300 := by
  constructor
  · norm_num [handleResize, jsDiv]
  · refine ⟨⟨pin, ((projectVec cam g).x * (1 / 2) + 1 / 2) * 400,
        (-(projectVec cam g).y * (1 / 2) + 1 / 2) * 300,
        decide ((projectVec cam g).z < 1)⟩, ?_, ?_, ?_, ?_, ?_⟩
    · simp only [projectPin, hg]
    · nlinarith
    · nlinarith
    · nlinarith
    · nlinarith

/-- Witness for the amended C8 at the demonstration inputs. -/
theorem resize_zero_then_positive_recovery_witness :
    (handleResize 400 300 (handleResize 0 0 (initScene 800 600 none).1)).aspect =
      some (4 / 3) ∧
    ∃ r, projectPin demoCam ⟨400, 300⟩ demoPinFront = Except.ok r ∧
      0 ≤ r.x ∧ r.x ≤ 400 ∧ 0 ≤ r.y ∧ r.y ≤ 300 :=
  resize_zero_then_positive_recovery (initScene 800 600 none).1 demoCam
    demoPinFront ⟨0, 0, -5⟩ rfl
    (by norm_num [demo_projectVec_front_eval])
    (by norm_num [demo_projectVec_front_eval])
    (by norm_num [demo_projectVec_front_eval])
    (by norm_num [demo_projectVec_front_eval])

/-- C9 counterexample: after teardown of a session with an in-flight
load, completion of that load is not a no-op: the stale scene graph
receives the model node, the stale camera is repositioned (to x = 9/2,
away from the default x = 3), and the loading flag flips. -/
theorem late_load_not_noop_cex :
    (onLoadSuccess demoBox demoTornSession).sceneChildren.length =
      demoTornSession.sceneChildren.length + 1 ∧
    (onLoadSuccess demoBox demoTornSession).rig.pos.x = 9 / 2 ∧
    demoTornSession.rig.pos.x = 3 ∧
    (onLoadSuccess demoBox demoTornSession).isLoading = false ∧
    demoTornSession.isLoading = true := by
  refine ⟨rfl, ?_, rfl, rfl, rfl⟩
  simp only [onLoadSuccess]
  norm_num [fitCameraPos, fitScale, maxDim, boxSize, demoBox, Vec3.sub, max_def]

/-- C9 amended: teardown stops the render loop and disconnects resize
tracking, and a load completing afterwards schedules no further ticks
and does not crash; but it is not ignored: it still appends the model
node to the torn-down scene graph and clears the loading flag. -/
theorem teardown_cancels_loop_not_load (w h : ℚ) (url : String) (box : Box3) :
    (teardown (initScene w h (some url)).1).loopActive = false ∧
    (teardown (initScene w h (some url)).1).observerConnected = false ∧
    (onLoadSuccess box (teardown (initScene w h (some url)).1)).loopActive = false ∧
    (onLoadSuccess box (teardown (initScene w h (some url)).1)).sceneChildren =
      (teardown (initScene w h (some url)).1).sceneChildren ++
        [⟨NodeKind.group, "gltf.scene", GeomDesc.empty, fitPosition box, 0, 0⟩] ∧
    (onLoadSuccess box (teardown (initScene w h (some url)).1)).isLoading = false :=
  ⟨rfl, rfl, rfl, rfl, rfl⟩

/-- C10: When the asset load fails, the session recovers locally: the
procedural placeholder (five meshes, among them the lathe shaft) is in
the scene graph, the loading flag is false, and a non-empty error
message is set; with no asset URL the placeholder is built directly
and no network request is issued, while a URL does issue one. -/
theorem load_failure_and_no_url_fallback (w h : ℚ) (url : String) :
    ((onLoadFailure (initScene w h (some url)).1).sceneChildren.filter
        (fun n => n.kind == NodeKind.mesh)).length = 5 ∧
    (⟨NodeKind.mesh, "shaft", GeomDesc.lathe 21 24, ⟨0, 0, 0⟩, 0, 0⟩ : SceneNode) ∈
      (onLoadFailure (initScene w h (some url)).1).sceneChildren ∧
    (onLoadFailure (initScene w h (some url)).1).isLoading = false ∧
    (∃ msg, (onLoadFailure (initScene w h (some url)).1).loadError = some msg ∧
      msg ≠ "") ∧
    (initScene w h (some url)).2 = true ∧
    (initScene w h none).2 = false ∧
    ((initScene w h none).1.sceneChildren.filter
        (fun n => n.kind == NodeKind.mesh)).length = 5 ∧
    (initScene w h none).1.isLoading = false := by
  refine ⟨rfl, ?_, rfl, ⟨"Error al cargar el modelo 3D", rfl, by simp⟩, rfl, rfl, rfl, rfl⟩
  simp [initScene, onLoadFailure, buildFallbackModel, lightingNodes]

end ModelViewer3D
